import Mathlib

/-
  Verification of the chicha-ip-proxy forwarding engine (Go sources:
  pkg/proxy/tcp.go and the UDP session-manager file with failure events).
  Pure shallow embedding: channels become lists with explicit capacities,
  goroutine scheduling becomes explicit input oracles, `time.Now()` becomes
  a `Nat` second count supplied at each step, and sockets are tracked by
  their open/closed state.  All definitions are translated from the Go
  source; the doc comment of each names the function it embeds.
-/

set_option autoImplicit false
set_option maxRecDepth 4096

namespace ChichaProxy

/-- A datagram or stream payload: a byte sequence. -/
abbrev Payload := List Nat

/-- One `logger.Printf`/`logger.Fatalf` call site of the engine, with the
addresses it interpolates.  The reason strings of session teardown are kept
verbatim. -/
inductive LogEvent where
  | tcpBindFatal (listenAddr : String)
  | tcpProxyStarted (listenAddr : String)
  | udpBindFatal (listenAddr : String)
  | udpProxyStarted (listenAddr : String)
  | resolveFailure (targetAddr : String)
  | dialFailure (targetAddr : String)
  | dropFullQueue (clientAddr : String)
  | closedIdleSession (addr : String)
  | closedFailedSession (key : String) (reason : String)
  | eventQueueFull (clientAddr : String) (reason : String)
  | sendError (clientAddr : String)
  | readReplyError (clientAddr : String)
  | writeReplyError (clientAddr : String)
  deriving Repr, DecidableEq

/-- Capacity of a session's outbound channel: `make(chan []byte, 32)`. -/
def udpOutboundCapacity : Nat := 32

/-- Capacity of the failure-event channel: `make(chan sessionEvent, 128)`. -/
def sessionEventCapacity : Nat := 128

/-- Idle threshold in seconds: `60 * time.Second` in the sweep and the replier. -/
def udpIdleThreshold : Nat := 60

/-- Interval of the cleanup ticker in seconds: `time.NewTicker(30 * time.Second)`. -/
def udpCleanupInterval : Nat := 30

/-- Forwarder write deadline in seconds: `SetWriteDeadline(now + 2s)`. -/
def udpWriteDeadlineSeconds : Nat := 2

/-- Replier read deadline in seconds: `SetReadDeadline(now + 5s)`. -/
def udpReadDeadlineSeconds : Nat := 5

/-- `udpMessage`: a single datagram from a client.  The client address is
modeled by its canonical string form, which is all the code ever extracts
from it (`msg.addr.String()` as session key and log text, and as the
reply target). -/
structure udpMessage where
  data : Payload
  addr : String
  deriving Repr, DecidableEq

/-- `udpSession`: the per-client session.  `remoteConn` is modeled by its
closed flag, the buffered `outbound` channel by its queued contents plus a
closed flag, and `lastActive` by a second count. -/
structure udpSession where
  clientAddr : String
  remoteClosed : Bool
  outbound : List Payload
  outboundClosed : Bool
  lastActive : Nat
  id : String
  deriving Repr, DecidableEq

/-- `sessionEvent`: the message a failing forwarder or replier sends to the
manager.  It carries only the table key and a reason string. -/
structure sessionEvent where
  key : String
  reason : String
  deriving Repr, DecidableEq

/-- The state owned by `manageUDPSessions`: the session table (an
association list standing for the Go map, keyed by the client-address
string), the already-torn-down session objects (still referenced by their
goroutines after `delete`), and the log so far. -/
structure ManagerState where
  sessions : List (String × udpSession)
  closed : List udpSession
  log : List LogEvent
  deriving Repr, DecidableEq

/-- `sessions[sessionKey]` map lookup. -/
def findSession (key : String) : List (String × udpSession) → Option udpSession
  | [] => none
  | (k, s) :: rest => if k = key then some s else findSession key rest

/-- `delete(sessions, key)` map removal. -/
def removeSession (key : String) : List (String × udpSession) → List (String × udpSession)
  | [] => []
  | (k, s) :: rest =>
      if k = key then removeSession key rest else (k, s) :: removeSession key rest

/-- In-place mutation of the session stored under `key` (the Go map holds a
pointer, so field assignments are visible through the table). -/
def updateSession (key : String) (f : udpSession → udpSession) :
    List (String × udpSession) → List (String × udpSession)
  | [] => []
  | (k, s) :: rest =>
      if k = key then (k, f s) :: updateSession key f rest
      else (k, s) :: updateSession key f rest

/-- The teardown the manager applies to a session — both the idle sweep and
the failure-event branch run the same two calls: `close(session.outbound)`
and `session.remoteConn.Close()`. -/
def closeSession (s : udpSession) : udpSession :=
  { s with outboundClosed := true, remoteClosed := true }

/-- The session literal built on first contact: fresh open remote socket,
empty 32-slot queue, `lastActive` set to now, `id` set to the table key. -/
def newUDPSession (addr : String) (now : Nat) (key : String) : udpSession :=
  { clientAddr := addr, remoteClosed := false, outbound := [],
    outboundClosed := false, lastActive := now, id := key }

/-- The non-blocking enqueue of an inbound payload:
`select { case session.outbound <- msg.data: ; default: log drop }`.
A send on a buffered channel succeeds exactly when fewer than capacity
elements are queued; the default branch drops the datagram and logs. -/
def enqueueOutbound (data : Payload) (s : udpSession) (log : List LogEvent) :
    udpSession × List LogEvent :=
  if s.outbound.length < udpOutboundCapacity then
    ({ s with outbound := s.outbound ++ [data] }, log)
  else
    (s, log ++ [LogEvent.dropFullQueue s.clientAddr])

/-- The inbound-datagram branch of `manageUDPSessions`: look up the session
by the source-address string; if absent, resolve and dial the target
(`resolveOk`/`dialOk` are the outcomes of `net.ResolveUDPAddr` /
`net.DialUDP`; either failure only logs and skips the datagram), create
and insert the session and start its two goroutines; then update
`lastActive` and do the non-blocking enqueue. -/
def handleInbound (targetAddr : String) (resolveOk dialOk : Bool) (now : Nat)
    (msg : udpMessage) (st : ManagerState) : ManagerState :=
  let sessionKey := msg.addr
  match findSession sessionKey st.sessions with
  | some s =>
      let s1 : udpSession := { s with lastActive := now }
      let r := enqueueOutbound msg.data s1 st.log
      { st with sessions := updateSession sessionKey (fun _ => r.1) st.sessions,
                log := r.2 }
  | none =>
      match resolveOk, dialOk with
      | false, _ => { st with log := st.log ++ [LogEvent.resolveFailure targetAddr] }
      | true, false => { st with log := st.log ++ [LogEvent.dialFailure targetAddr] }
      | true, true =>
          let s0 := newUDPSession msg.addr now sessionKey
          let s1 : udpSession := { s0 with lastActive := now }
          let r := enqueueOutbound msg.data s1 st.log
          { st with sessions := st.sessions ++ [(sessionKey, r.1)],
                    log := r.2 }

/-- The cleanup-ticker branch of `manageUDPSessions`: for every table entry
idle for more than 60 seconds, close its outbound channel, close its remote
socket, delete the entry and log; entries with recent activity are left
untouched. -/
def sweepIdle (now : Nat) (st : ManagerState) : ManagerState :=
  let stale := st.sessions.filter (fun p => decide (udpIdleThreshold < now - p.2.lastActive))
  { sessions := st.sessions.filter
      (fun p => !decide (udpIdleThreshold < now - p.2.lastActive)),
    closed := st.closed ++ stale.map (fun p => closeSession p.2),
    log := st.log ++ stale.map (fun p => LogEvent.closedIdleSession p.1) }

/-- The failure-event branch of `manageUDPSessions`: if a session is
currently stored under `event.key`, close its outbound channel and remote
socket, delete the entry and log the supplied reason; otherwise do
nothing. -/
def handleSessionEvent (ev : sessionEvent) (st : ManagerState) : ManagerState :=
  match findSession ev.key st.sessions with
  | some s =>
      { sessions := removeSession ev.key st.sessions,
        closed := st.closed ++ [closeSession s],
        log := st.log ++ [LogEvent.closedFailedSession ev.key ev.reason] }
  | none => st

/-- Which of the three select cases of the manager loop fires, with the
data it receives and the environment outcomes it observes. -/
inductive ManagerInput where
  | inbound (resolveOk dialOk : Bool) (now : Nat) (msg : udpMessage)
  | tick (now : Nat)
  | failure (ev : sessionEvent)
  deriving Repr, DecidableEq

/-- One iteration of the manager's select loop. -/
def managerStep (targetAddr : String) : ManagerInput → ManagerState → ManagerState
  | .inbound r d now msg, st => handleInbound targetAddr r d now msg st
  | .tick now, st => sweepIdle now st
  | .failure ev, st => handleSessionEvent ev st

/-- The manager's state at start: empty table, nothing closed, no log. -/
def initialManagerState : ManagerState :=
  { sessions := [], closed := [], log := [] }

/-- The manager state reached by a finite run of the select loop. -/
def managerRun (targetAddr : String) (inputs : List ManagerInput) : ManagerState :=
  inputs.foldl (fun st i => managerStep targetAddr i st) initialManagerState

/-- The manager consuming a backlog of pending failure events in order. -/
def drainEvents (events : List sessionEvent) (st : ManagerState) : ManagerState :=
  events.foldl (fun s e => handleSessionEvent e s) st

/-- `notifyUDPSessionFailure`: the non-blocking select send of
`{key: session.id, reason}` on the failure-event channel; when the channel
already holds `sessionEventCapacity` events the default branch drops the
report and logs the queue overflow. -/
def notifyUDPSessionFailure (session : udpSession) (reason : String)
    (events : List sessionEvent) (log : List LogEvent) :
    List sessionEvent × List LogEvent :=
  if events.length < sessionEventCapacity then
    (events ++ [{ key := session.id, reason := reason }], log)
  else
    (events, log ++ [LogEvent.eventQueueFull session.clientAddr reason])

/-- `forwardUDPPackets`: drain the queued payloads in order; each write gets
a 2s deadline, `writeOk i` tells whether the i-th write succeeds.  On a
write error the task logs, reports a `write failure` event and returns; when
the channel is closed and drained the loop simply ends.  Returns the
payloads actually written to the remote, and the event channel and log after
the run. -/
def forwardUDPPackets (session : udpSession) (writeOk : Nat → Bool)
    (events : List sessionEvent) (log : List LogEvent) :
    List Payload → Nat → List Payload × List sessionEvent × List LogEvent
  | [], _ => ([], events, log)
  | d :: rest, i =>
      if writeOk i then
        let r := forwardUDPPackets session writeOk events log rest (i + 1)
        (d :: r.1, r.2)
      else
        ([], notifyUDPSessionFailure session "write failure" events
               (log ++ [LogEvent.sendError session.clientAddr]))

/-- Outcome of one `session.remoteConn.Read` under its 5s deadline. -/
inductive ReadOutcome where
  | timeout
  | readErr
  | ok (payload : Payload)
  deriving Repr, DecidableEq

/-- The environment of one replier-loop iteration: the read outcome, whether
the `responder.WriteTo` reply write-back succeeds, and the clock and the
session's `lastActive` field as observed at this iteration (the manager
updates `lastActive` concurrently, so it is an input here). -/
structure ReplierInput where
  outcome : ReadOutcome
  respondOk : Bool
  now : Nat
  lastActive : Nat
  deriving Repr, DecidableEq

/-- `relayUDPReplies`: loop reading from the dedicated remote socket.  A
timeout with recent session activity renews the deadline and continues; a
timeout on a stale session reports `remote idle timeout` and exits.  A read
error logs, reports `read failure` and exits.  A successful read is written
back to the client through the shared socket; a write-back error logs,
reports `respond failure` and exits.  Returns the replies delivered to the
client, and the event channel and log after the run. -/
def relayUDPReplies (session : udpSession) (events : List sessionEvent)
    (log : List LogEvent) :
    List ReplierInput → List Payload × List sessionEvent × List LogEvent
  | [] => ([], events, log)
  | inp :: rest =>
      match inp.outcome with
      | .timeout =>
          if inp.now - inp.lastActive < udpIdleThreshold then
            relayUDPReplies session events log rest
          else
            ([], notifyUDPSessionFailure session "remote idle timeout" events log)
      | .readErr =>
          ([], notifyUDPSessionFailure session "read failure" events
                 (log ++ [LogEvent.readReplyError session.clientAddr]))
      | .ok p =>
          if inp.respondOk then
            let r := relayUDPReplies session events log rest
            (p :: r.1, r.2)
          else
            ([], notifyUDPSessionFailure session "respond failure" events
                   (log ++ [LogEvent.writeReplyError session.clientAddr]))

/-- One interleaved operation on a session's outbound channel: the manager's
non-blocking enqueue of an arrived datagram (drop when 32 are queued), or
the forwarder receiving the front element and attempting the remote write
(`drain true` = write succeeded, `drain false` = write error, after which
the forwarder returns and drains nothing further). -/
inductive SessionOp where
  | arrive (p : Payload)
  | drain (ok : Bool)
  deriving Repr, DecidableEq

/-- The observable state of one session's outbound channel and forwarder:
the queued payloads, the payloads already written to the remote in order,
and whether the forwarder has exited. -/
structure FifoState where
  queue : List Payload
  written : List Payload
  stopped : Bool
  deriving Repr, DecidableEq

/-- Effect of one channel operation, combining the manager's enqueue
(`select`/`default` drop at capacity 32) with the forwarder's
`for data := range session.outbound` drain and write. -/
def fifoStep (st : FifoState) : SessionOp → FifoState
  | .arrive p =>
      if st.queue.length < udpOutboundCapacity then
        { st with queue := st.queue ++ [p] }
      else st
  | .drain ok =>
      if st.stopped then st
      else
        match st.queue with
        | [] => st
        | p :: rest =>
            if ok then { st with queue := rest, written := st.written ++ [p] }
            else { st with queue := rest, stopped := true }

/-- The channel state after a finite interleaving, starting from the fresh
session (empty queue, running forwarder). -/
def fifoRun (ops : List SessionOp) : FifoState :=
  ops.foldl fifoStep { queue := [], written := [], stopped := false }

/-- The datagrams of an interleaving in client send order. -/
def arrivals : List SessionOp → List Payload
  | [] => []
  | .arrive p :: rest => p :: arrivals rest
  | .drain _ :: rest => arrivals rest

/-- Observable events of one accepted TCP connection in
`handleTCPConnections`: the new-connection log, the dial outcome, each copy
direction's optional error log and its completion signal on the `done`
channel, the close log and the two deferred closes. -/
inductive TCPEvent where
  | logNewConn
  | logDialFailure
  | logCopyErrToServer
  | logCopyErrToClient
  | copyDoneClientToServer
  | copyDoneServerToClient
  | logConnClosed
  | serverConnClosed
  | clientConnClosed
  deriving Repr, DecidableEq

/-- The events of one copy goroutine, observed at its completion: an error
log when `io.Copy` failed with a non-EOF error, then its send on `done`. -/
def tcpCopyEvents (clientToServer : Bool) (errored : Bool) : List TCPEvent :=
  (if errored then
     [if clientToServer then TCPEvent.logCopyErrToServer
      else TCPEvent.logCopyErrToClient]
   else [])
    ++ [if clientToServer then TCPEvent.copyDoneClientToServer
        else TCPEvent.copyDoneServerToClient]

/-- The event trace of one accepted connection in `handleTCPConnections`:
log the connection, dial the target (on failure: log and run the deferred
client close), otherwise run both copy goroutines — each linearized at its
completion point, in either completion order —, then after both `done`
receives log the close and run the deferred closes (server socket first,
client socket last, LIFO defers). -/
def handleTCPConn (dialOk clientToServerFirst c2sErr s2cErr : Bool) :
    List TCPEvent :=
  if dialOk then
    [TCPEvent.logNewConn]
      ++ (if clientToServerFirst then
            tcpCopyEvents true c2sErr ++ tcpCopyEvents false s2cErr
          else
            tcpCopyEvents false s2cErr ++ tcpCopyEvents true c2sErr)
      ++ [TCPEvent.logConnClosed, TCPEvent.serverConnClosed,
          TCPEvent.clientConnClosed]
  else
    [TCPEvent.logNewConn, TCPEvent.logDialFailure, TCPEvent.clientConnClosed]

/-- What a call to `StartTCPProxy`/`StartUDPProxy` does at its bind step.
`processExit` models `logger.Fatalf`, which prints the message and then
calls `os.Exit(1)`, terminating the entire process and with it every other
route's goroutine. -/
inductive StartOutcome where
  | processExit
  | listening
  deriving Repr, DecidableEq

/-- The bind phase of `StartTCPProxy`: `net.Listen("tcp", listenAddr)`; on
error `logger.Fatalf(...)` (log then whole-process exit), otherwise log the
start and keep serving. -/
def startTCPProxyBind (bindOk : Bool) (listenAddr : String) :
    StartOutcome × List LogEvent :=
  if bindOk then (StartOutcome.listening, [LogEvent.tcpProxyStarted listenAddr])
  else (StartOutcome.processExit, [LogEvent.tcpBindFatal listenAddr])

/-- The bind phase of `StartUDPProxy`: `net.ListenPacket("udp", listenAddr)`;
on error `logger.Fatalf(...)` (log then whole-process exit), otherwise log
the start and keep serving. -/
def startUDPProxyBind (bindOk : Bool) (listenAddr : String) :
    StartOutcome × List LogEvent :=
  if bindOk then (StartOutcome.listening, [LogEvent.udpProxyStarted listenAddr])
  else (StartOutcome.processExit, [LogEvent.udpBindFatal listenAddr])

/- ## Helper lemmas about the session table -/

theorem findSession_eq_none_iff (k : String) (l : List (String × udpSession)) :
    findSession k l = none ↔ k ∉ l.map Prod.fst := by
  induction l with
  | nil => simp [findSession]
  | cons p rest ih =>
      obtain ⟨k', s⟩ := p
      by_cases h : k' = k
      · subst h; simp [findSession]
      · simp [findSession, h, ih, Ne.symm h]

theorem updateSession_map_fst (k : String) (f : udpSession → udpSession)
    (l : List (String × udpSession)) :
    (updateSession k f l).map Prod.fst = l.map Prod.fst := by
  induction l with
  | nil => rfl
  | cons p rest ih =>
      obtain ⟨k', s⟩ := p
      by_cases h : k' = k <;> simp [updateSession, h, ih]

theorem removeSession_sublist (k : String) (l : List (String × udpSession)) :
    List.Sublist (removeSession k l) l := by
  induction l with
  | nil => simp [removeSession]
  | cons p rest ih =>
      obtain ⟨k', s⟩ := p
      by_cases h : k' = k
      · simpa [removeSession, h] using ih.cons (k', s)
      · simpa [removeSession, h] using ih.cons₂ (k', s)

theorem findSession_none_of_sublist {k : String}
    {l' l : List (String × udpSession)} (hsub : List.Sublist l' l)
    (h : findSession k l = none) : findSession k l' = none := by
  rw [findSession_eq_none_iff] at h ⊢
  exact fun hm => h ((hsub.map Prod.fst).subset hm)

theorem findSession_append_of_none {k : String} {l : List (String × udpSession)}
    (h : findSession k l = none) (s : udpSession) :
    findSession k (l ++ [(k, s)]) = some s := by
  induction l with
  | nil => simp [findSession]
  | cons p rest ih =>
      obtain ⟨k', s'⟩ := p
      by_cases hk : k' = k
      · simp [findSession, hk] at h
      · simp only [findSession, hk, if_neg hk, List.cons_append] at h ⊢
        exact ih h

theorem findSession_append_ne {k k' : String} (h : k' ≠ k)
    (l : List (String × udpSession)) (s : udpSession) :
    findSession k (l ++ [(k', s)]) = findSession k l := by
  induction l with
  | nil => simp [findSession, h]
  | cons p rest ih =>
      obtain ⟨k'', s'⟩ := p
      by_cases hk : k'' = k <;> simp [findSession, hk, ih]

theorem findSession_updateSession_ne {k k' : String} (h : k ≠ k')
    (f : udpSession → udpSession) (l : List (String × udpSession)) :
    findSession k (updateSession k' f l) = findSession k l := by
  induction l with
  | nil => rfl
  | cons p rest ih =>
      obtain ⟨k'', s⟩ := p
      by_cases h1 : k'' = k'
      · subst h1
        simp [updateSession, findSession, Ne.symm h, ih]
      · by_cases h2 : k'' = k <;> simp [updateSession, findSession, h1, h2, ih, h]

/- ## Key uniqueness is preserved by every manager step -/

theorem managerStep_keys_nodup (t : String) (i : ManagerInput) (st : ManagerState)
    (h : (st.sessions.map Prod.fst).Nodup) :
    (((managerStep t i st).sessions).map Prod.fst).Nodup := by
  cases i with
  | inbound r d now msg =>
      simp only [managerStep, handleInbound]
      cases hf : findSession msg.addr st.sessions with
      | some s => simpa [updateSession_map_fst] using h
      | none =>
          cases r with
          | false => simpa using h
          | true =>
              cases d with
              | false => simpa using h
              | true =>
                  have hmem : msg.addr ∉ st.sessions.map Prod.fst :=
                    (findSession_eq_none_iff _ _).mp hf
                  simp only [List.map_append, List.map_cons, List.map_nil]
                  rw [List.nodup_append]
                  refine ⟨h, List.nodup_singleton _, ?_⟩
                  intro a ha hb
                  rw [List.mem_singleton] at hb
                  subst hb
                  exact hmem ha
  | tick now =>
      exact ((List.filter_sublist st.sessions).map Prod.fst).nodup h
  | failure ev =>
      simp only [managerStep, handleSessionEvent]
      cases hf : findSession ev.key st.sessions with
      | some s => exact (((removeSession_sublist ev.key st.sessions)).map Prod.fst).nodup h
      | none => exact h

theorem managerRun_keys_nodup (t : String) (inputs : List ManagerInput) :
    (((managerRun t inputs).sessions).map Prod.fst).Nodup := by
  suffices h : ∀ st : ManagerState, (st.sessions.map Prod.fst).Nodup →
      (((inputs.foldl (fun st i => managerStep t i st) st).sessions).map Prod.fst).Nodup by
    exact h initialManagerState (by simp [initialManagerState])
  induction inputs with
  | nil => intro st h; simpa using h
  | cons i rest ih =>
      intro st h
      exact ih _ (managerStep_keys_nodup t i st h)

/- ## Creation characterization for the inbound branch -/

theorem handleInbound_creates (t : String) (r d : Bool) (now : Nat)
    (msg : udpMessage) (st : ManagerState) (k : String)
    (h : findSession k st.sessions = none) :
    (findSession k (handleInbound t r d now msg st).sessions).isSome
      ↔ (r = true ∧ d = true ∧ msg.addr = k) := by
  by_cases hak : msg.addr = k
  · subst hak
    simp only [handleInbound, h]
    cases r with
    | false => simp [h]
    | true =>
        cases d with
        | false => simp [h]
        | true => simp [findSession_append_of_none h]
  · simp only [handleInbound]
    cases hf : findSession msg.addr st.sessions with
    | some s =>
        rw [findSession_updateSession_ne (fun he => hak he.symm), h]
        simp [hak]
    | none =>
        cases r with
        | false => simp [h, hak]
        | true =>
            cases d with
            | false => simp [h, hak]
            | true => simp [findSession_append_ne hak, h, hak]

theorem sweepIdle_no_creation (now : Nat) (st : ManagerState) (k : String)
    (h : findSession k st.sessions = none) :
    findSession k (sweepIdle now st).sessions = none :=
  findSession_none_of_sublist (List.filter_sublist st.sessions) h

theorem handleSessionEvent_no_creation (ev : sessionEvent) (st : ManagerState)
    (k : String) (h : findSession k st.sessions = none) :
    findSession k (handleSessionEvent ev st).sessions = none := by
  simp only [handleSessionEvent]
  cases hf : findSession ev.key st.sessions with
  | some s => exact findSession_none_of_sublist (removeSession_sublist _ _) h
  | none => exact h

/- ## Helper lemmas about the per-session tasks -/

theorem forward_write_failure (session : udpSession) (writeOk : Nat → Bool)
    (events : List sessionEvent) (log : List LogEvent) (d : Payload)
    (rest : List Payload) (i : Nat) (h : writeOk i = false) :
    forwardUDPPackets session writeOk events log (d :: rest) i
      = ([], notifyUDPSessionFailure session "write failure" events
               (log ++ [LogEvent.sendError session.clientAddr])) := by
  simp [forwardUDPPackets, h]

theorem relay_timeout_fresh (session : udpSession) (events : List sessionEvent)
    (log : List LogEvent) (inp : ReplierInput) (rest : List ReplierInput)
    (h : inp.outcome = ReadOutcome.timeout)
    (hlt : inp.now - inp.lastActive < udpIdleThreshold) :
    relayUDPReplies session events log (inp :: rest)
      = relayUDPReplies session events log rest := by
  simp [relayUDPReplies, h, hlt]

theorem relay_timeout_stale (session : udpSession) (events : List sessionEvent)
    (log : List LogEvent) (inp : ReplierInput) (rest : List ReplierInput)
    (h : inp.outcome = ReadOutcome.timeout)
    (hge : udpIdleThreshold ≤ inp.now - inp.lastActive) :
    relayUDPReplies session events log (inp :: rest)
      = ([], notifyUDPSessionFailure session "remote idle timeout" events log) := by
  simp [relayUDPReplies, h, Nat.not_lt.mpr hge]

theorem relay_read_failure (session : udpSession) (events : List sessionEvent)
    (log : List LogEvent) (inp : ReplierInput) (rest : List ReplierInput)
    (h : inp.outcome = ReadOutcome.readErr) :
    relayUDPReplies session events log (inp :: rest)
      = ([], notifyUDPSessionFailure session "read failure" events
               (log ++ [LogEvent.readReplyError session.clientAddr])) := by
  simp [relayUDPReplies, h]

theorem relay_respond_failure (session : udpSession) (events : List sessionEvent)
    (log : List LogEvent) (inp : ReplierInput) (rest : List ReplierInput)
    (p : Payload) (h : inp.outcome = ReadOutcome.ok p)
    (hw : inp.respondOk = false) :
    relayUDPReplies session events log (inp :: rest)
      = ([], notifyUDPSessionFailure session "respond failure" events
               (log ++ [LogEvent.writeReplyError session.clientAddr])) := by
  simp [relayUDPReplies, h, hw]

theorem notify_not_full (session : udpSession) (reason : String)
    (events : List sessionEvent) (log : List LogEvent)
    (h : events.length < sessionEventCapacity) :
    notifyUDPSessionFailure session reason events log
      = (events ++ [{ key := session.id, reason := reason }], log) := by
  simp [notifyUDPSessionFailure, h]

theorem notify_full (session : udpSession) (reason : String)
    (events : List sessionEvent) (log : List LogEvent)
    (h : sessionEventCapacity ≤ events.length) :
    notifyUDPSessionFailure session reason events log
      = (events, log ++ [LogEvent.eventQueueFull session.clientAddr reason]) := by
  simp [notifyUDPSessionFailure, Nat.not_lt.mpr h]

theorem handleSessionEvent_found (ev : sessionEvent) (st : ManagerState)
    (s : udpSession) (h : findSession ev.key st.sessions = some s) :
    handleSessionEvent ev st
      = { sessions := removeSession ev.key st.sessions,
          closed := st.closed ++ [closeSession s],
          log := st.log ++ [LogEvent.closedFailedSession ev.key ev.reason] } := by
  simp [handleSessionEvent, h]

/- ## FIFO order of one session's outbound channel -/

theorem arrivals_cons (op : SessionOp) (rest : List SessionOp) :
    arrivals (op :: rest) = arrivals [op] ++ arrivals rest := by
  cases op <;> simp [arrivals]

theorem fifoStep_order (st : FifoState) (op : SessionOp) (A : List Payload)
    (h : List.Sublist (st.written ++ st.queue) A) :
    List.Sublist ((fifoStep st op).written ++ (fifoStep st op).queue)
      (A ++ arrivals [op]) := by
  cases op with
  | arrive p =>
      by_cases hc : st.queue.length < udpOutboundCapacity
      · simp only [fifoStep, if_pos hc, arrivals]
        rw [← List.append_assoc]
        exact h.append (List.Sublist.refl [p])
      · simp only [fifoStep, if_neg hc, arrivals]
        exact h.trans (List.sublist_append_left A [p])
  | drain ok =>
      simp only [arrivals, List.append_nil]
      by_cases hs : st.stopped = true
      · simpa [fifoStep, hs] using h
      · cases hq : st.queue with
        | nil => simpa [fifoStep, hs, hq] using h
        | cons p rest =>
            cases ok with
            | true =>
                simp only [fifoStep, hs, Bool.false_eq_true, if_neg, hq, if_pos]
                have he : (st.written ++ [p]) ++ rest = st.written ++ st.queue := by
                  rw [hq, List.append_assoc]; rfl
                simpa [he] using h
            | false =>
                simp only [fifoStep, hs, Bool.false_eq_true, if_neg, hq]
                have hsub : List.Sublist (st.written ++ rest) (st.written ++ st.queue) := by
                  rw [hq]
                  exact ((List.Sublist.refl rest).cons p).append_left st.written
                simpa using hsub.trans h

theorem fifoRun_order_aux (ops : List SessionOp) :
    ∀ (st : FifoState) (A : List Payload),
      List.Sublist (st.written ++ st.queue) A →
      List.Sublist ((ops.foldl fifoStep st).written ++ (ops.foldl fifoStep st).queue)
        (A ++ arrivals ops) := by
  induction ops with
  | nil => intro st A h; simpa [arrivals] using h
  | cons op rest ih =>
      intro st A h
      have h2 := ih (fifoStep st op) (A ++ arrivals [op]) (fifoStep_order st op A h)
      rw [arrivals_cons, ← List.append_assoc]
      simpa [List.foldl] using h2

/- ## Claim theorems -/

/-- C1: evaluating the bind-failure path of `StartTCPProxy` and
`StartUDPProxy` shows that a failed `net.Listen`/`net.ListenPacket` makes
the route call `logger.Fatalf`, which terminates the entire process — not
just this route — after logging.  This contradicts the claim that a bind
failure is surfaced to the route owner and leaves other routes running. -/
theorem bind_failure_exits_process :
    ∀ listenAddr : String,
      startTCPProxyBind false listenAddr
          = (StartOutcome.processExit, [LogEvent.tcpBindFatal listenAddr])
        ∧ startUDPProxyBind false listenAddr
          = (StartOutcome.processExit, [LogEvent.udpBindFatal listenAddr]) :=
  fun _ => ⟨rfl, rfl⟩

/-- C3 (amended): every reachable manager state has at most one table entry
per client-address key (the key list is duplicate-free), and a step creates
an entry for key `k` exactly when it is an inbound datagram from address
`k` with no current entry for `k` and both the remote resolve and the
remote dial succeed; the idle sweep and the failure-event branch never
create entries. -/
theorem udp_session_table_spec :
    (∀ (targetAddr : String) (inputs : List ManagerInput),
        (((managerRun targetAddr inputs).sessions).map Prod.fst).Nodup)
    ∧ (∀ (t : String) (r d : Bool) (now : Nat) (msg : udpMessage)
          (st : ManagerState) (k : String),
        findSession k st.sessions = none →
          ((findSession k (handleInbound t r d now msg st).sessions).isSome
            ↔ (r = true ∧ d = true ∧ msg.addr = k)))
    ∧ (∀ (now : Nat) (st : ManagerState) (k : String),
        findSession k st.sessions = none →
          findSession k (sweepIdle now st).sessions = none)
    ∧ (∀ (ev : sessionEvent) (st : ManagerState) (k : String),
        findSession k st.sessions = none →
          findSession k (handleSessionEvent ev st).sessions = none) :=
  ⟨managerRun_keys_nodup, handleInbound_creates, sweepIdle_no_creation,
    handleSessionEvent_no_creation⟩

/-- C3 counterexample: a datagram arrives from address `c`, which has no
table entry, yet no session is created, because the remote dial fails — so
"a session is created exactly when a datagram arrives from an address that
has no current table entry" is false as stated. -/
theorem udp_session_creation_counterexample :
    findSession "c" initialManagerState.sessions = none
    ∧ findSession "c"
        ((managerStep "t"
            (ManagerInput.inbound true false 0 { data := [], addr := "c" })
            initialManagerState).sessions) = none :=
  ⟨rfl, rfl⟩

/-- C3 witness: the amended theorem applied at concrete inputs — an inbound
datagram from unknown address `c` with successful resolve and dial creates
an entry; a sweep and a failure event on the empty table create none. -/
theorem udp_session_table_spec_witness :
    (findSession "c"
        ((handleInbound "t" true true 5 { data := [7], addr := "c" }
            initialManagerState).sessions)).isSome
    ∧ findSession "c" (sweepIdle 0 initialManagerState).sessions = none
    ∧ findSession "c"
        (handleSessionEvent { key := "x", reason := "read failure" }
            initialManagerState).sessions = none :=
  ⟨(udp_session_table_spec.2.1 "t" true true 5 { data := [7], addr := "c" }
      initialManagerState "c" rfl).mpr ⟨rfl, rfl, rfl⟩,
    udp_session_table_spec.2.2.1 0 initialManagerState "c" rfl,
    udp_session_table_spec.2.2.2 { key := "x", reason := "read failure" }
      initialManagerState "c" rfl⟩

/-- C4: the outbound queue capacity is the fixed constant 32 (a session is
created with an empty 32-slot queue), and the manager's enqueue never
blocks: below capacity the payload is appended, at capacity the datagram
is dropped, the drop is logged, and the session — queue included — is
returned unchanged. -/
theorem udp_outbound_queue_spec :
    udpOutboundCapacity = 32
    ∧ (∀ (a : String) (n : Nat) (k : String), (newUDPSession a n k).outbound = [])
    ∧ (∀ (data : Payload) (s : udpSession) (log : List LogEvent),
        s.outbound.length < udpOutboundCapacity →
          enqueueOutbound data s log
            = ({ s with outbound := s.outbound ++ [data] }, log))
    ∧ (∀ (data : Payload) (s : udpSession) (log : List LogEvent),
        udpOutboundCapacity ≤ s.outbound.length →
          enqueueOutbound data s log
            = (s, log ++ [LogEvent.dropFullQueue s.clientAddr])) := by
  refine ⟨rfl, fun a n k => rfl, ?_, ?_⟩
  · intro data s log h
    simp [enqueueOutbound, h]
  · intro data s log h
    simp [enqueueOutbound, Nat.not_lt.mpr h]

/-- C4 witness: the theorem applied to a fresh empty queue (append) and to
a queue holding 32 payloads (logged drop, session unchanged). -/
theorem udp_outbound_queue_spec_witness :
    enqueueOutbound [9]
        { clientAddr := "c", remoteClosed := false, outbound := [],
          outboundClosed := false, lastActive := 0, id := "c" } []
      = ({ clientAddr := "c", remoteClosed := false, outbound := [[9]],
           outboundClosed := false, lastActive := 0, id := "c" }, [])
    ∧ enqueueOutbound [9]
        { clientAddr := "c", remoteClosed := false,
          outbound := List.replicate 32 [], outboundClosed := false,
          lastActive := 0, id := "c" } []
      = ({ clientAddr := "c", remoteClosed := false,
           outbound := List.replicate 32 [], outboundClosed := false,
           lastActive := 0, id := "c" },
         [LogEvent.dropFullQueue "c"]) :=
  ⟨udp_outbound_queue_spec.2.2.1 [9] _ [] (by decide),
    udp_outbound_queue_spec.2.2.2 [9] _ [] (by decide)⟩

/-- C5: the sweep interval and idle threshold are the constants 30 and 60
seconds; a table entry survives an idle sweep exactly when its last
activity is at most 60 seconds old; and every entry idle for more than 60
seconds is removed from the table with its outbound queue closed, its
remote socket closed, and the eviction logged. -/
theorem udp_idle_sweep_spec :
    udpCleanupInterval = 30 ∧ udpIdleThreshold = 60
    ∧ (∀ (now : Nat) (st : ManagerState) (p : String × udpSession),
        (p ∈ (sweepIdle now st).sessions
          ↔ (p ∈ st.sessions ∧ now - p.2.lastActive ≤ udpIdleThreshold)))
    ∧ (∀ (now : Nat) (st : ManagerState) (p : String × udpSession),
        p ∈ st.sessions → udpIdleThreshold < now - p.2.lastActive →
          (closeSession p.2 ∈ (sweepIdle now st).closed
            ∧ (closeSession p.2).outboundClosed = true
            ∧ (closeSession p.2).remoteClosed = true
            ∧ LogEvent.closedIdleSession p.1 ∈ (sweepIdle now st).log
            ∧ p ∉ (sweepIdle now st).sessions)) := by
  refine ⟨rfl, rfl, ?_, ?_⟩
  · intro now st p
    simp [sweepIdle, List.mem_filter, Nat.not_lt]
  · intro now st p hp hstale
    refine ⟨?_, rfl, rfl, ?_, ?_⟩
    · simp only [sweepIdle, List.mem_append]
      exact Or.inr (List.mem_map.mpr
        ⟨p, List.mem_filter.mpr ⟨hp, by simpa using hstale⟩, rfl⟩)
    · simp only [sweepIdle, List.mem_append]
      exact Or.inr (List.mem_map.mpr
        ⟨p, List.mem_filter.mpr ⟨hp, by simpa using hstale⟩, rfl⟩)
    · intro hmem
      have hkept : p ∈ st.sessions ∧ now - p.2.lastActive ≤ udpIdleThreshold := by
        simpa [sweepIdle, List.mem_filter, Nat.not_lt] using hmem
      exact absurd hstale (Nat.not_lt.mpr hkept.2)

/-- C5 witness: sweeping at time 100 a table holding a session idle since
time 0 (evicted, closed, logged) and a session active at time 90 (kept). -/
theorem udp_idle_sweep_spec_witness :
    (("b", { clientAddr := "b", remoteClosed := false, outbound := [],
             outboundClosed := false, lastActive := 90, id := "b" })
        ∈ (sweepIdle 100
            { sessions :=
                [("a", { clientAddr := "a", remoteClosed := false, outbound := [],
                         outboundClosed := false, lastActive := 0, id := "a" }),
                 ("b", { clientAddr := "b", remoteClosed := false, outbound := [],
                         outboundClosed := false, lastActive := 90, id := "b" })],
              closed := [], log := [] }).sessions)
    ∧ (closeSession
          { clientAddr := "a", remoteClosed := false, outbound := [],
            outboundClosed := false, lastActive := 0, id := "a" }
        ∈ (sweepIdle 100
            { sessions :=
                [("a", { clientAddr := "a", remoteClosed := false, outbound := [],
                         outboundClosed := false, lastActive := 0, id := "a" }),
                 ("b", { clientAddr := "b", remoteClosed := false, outbound := [],
                         outboundClosed := false, lastActive := 90, id := "b" })],
              closed := [], log := [] }).closed)
    ∧ (("a", { clientAddr := "a", remoteClosed := false, outbound := [],
               outboundClosed := false, lastActive := 0, id := "a" })
        ∉ (sweepIdle 100
            { sessions :=
                [("a", { clientAddr := "a", remoteClosed := false, outbound := [],
                         outboundClosed := false, lastActive := 0, id := "a" }),
                 ("b", { clientAddr := "b", remoteClosed := false, outbound := [],
                         outboundClosed := false, lastActive := 90, id := "b" })],
              closed := [], log := [] }).sessions) :=
  ⟨(udp_idle_sweep_spec.2.2.1 100 _ _).mpr ⟨by decide, by decide⟩,
    ((udp_idle_sweep_spec.2.2.2 100
        { sessions :=
            [("a", { clientAddr := "a", remoteClosed := false, outbound := [],
                     outboundClosed := false, lastActive := 0, id := "a" }),
             ("b", { clientAddr := "b", remoteClosed := false, outbound := [],
                     outboundClosed := false, lastActive := 90, id := "b" })],
          closed := [], log := [] }
        ("a", { clientAddr := "a", remoteClosed := false, outbound := [],
                outboundClosed := false, lastActive := 0, id := "a" })
        (by decide) (by decide)).1),
    ((udp_idle_sweep_spec.2.2.2 100
        { sessions :=
            [("a", { clientAddr := "a", remoteClosed := false, outbound := [],
                     outboundClosed := false, lastActive := 0, id := "a" }),
             ("b", { clientAddr := "b", remoteClosed := false, outbound := [],
                     outboundClosed := false, lastActive := 90, id := "b" })],
          closed := [], log := [] }
        ("a", { clientAddr := "a", remoteClosed := false, outbound := [],
                outboundClosed := false, lastActive := 0, id := "a" })
        (by decide) (by decide)).2.2.2.2)⟩

/-- C2: the failure-event channel is bounded (capacity 128); a forwarder
write error reports `write failure`, a replier read error `read failure`,
a reply write-back error `respond failure`, and a stale read timeout
`remote idle timeout`, each through the non-blocking event send; a send on
the non-saturated channel enqueues exactly `{key: session.id, reason}`;
and the manager, on receiving an event whose key is present, evicts that
session exactly as an idle sweep does — same `closeSession` teardown,
entry removed — logging the supplied reason. -/
theorem udp_failure_reporting_spec :
    sessionEventCapacity = 128
    ∧ (∀ (session : udpSession) (writeOk : Nat → Bool)
          (events : List sessionEvent) (log : List LogEvent) (d : Payload)
          (rest : List Payload) (i : Nat),
        writeOk i = false →
          forwardUDPPackets session writeOk events log (d :: rest) i
            = ([], notifyUDPSessionFailure session "write failure" events
                     (log ++ [LogEvent.sendError session.clientAddr])))
    ∧ (∀ (session : udpSession) (events : List sessionEvent)
          (log : List LogEvent) (inp : ReplierInput) (rest : List ReplierInput),
        inp.outcome = ReadOutcome.readErr →
          relayUDPReplies session events log (inp :: rest)
            = ([], notifyUDPSessionFailure session "read failure" events
                     (log ++ [LogEvent.readReplyError session.clientAddr])))
    ∧ (∀ (session : udpSession) (events : List sessionEvent)
          (log : List LogEvent) (inp : ReplierInput) (rest : List ReplierInput)
          (p : Payload),
        inp.outcome = ReadOutcome.ok p → inp.respondOk = false →
          relayUDPReplies session events log (inp :: rest)
            = ([], notifyUDPSessionFailure session "respond failure" events
                     (log ++ [LogEvent.writeReplyError session.clientAddr])))
    ∧ (∀ (session : udpSession) (events : List sessionEvent)
          (log : List LogEvent) (inp : ReplierInput) (rest : List ReplierInput),
        inp.outcome = ReadOutcome.timeout →
          udpIdleThreshold ≤ inp.now - inp.lastActive →
          relayUDPReplies session events log (inp :: rest)
            = ([], notifyUDPSessionFailure session "remote idle timeout" events log))
    ∧ (∀ (session : udpSession) (reason : String) (events : List sessionEvent)
          (log : List LogEvent),
        events.length < sessionEventCapacity →
          notifyUDPSessionFailure session reason events log
            = (events ++ [{ key := session.id, reason := reason }], log))
    ∧ (∀ (ev : sessionEvent) (st : ManagerState) (s : udpSession),
        findSession ev.key st.sessions = some s →
          handleSessionEvent ev st
            = { sessions := removeSession ev.key st.sessions,
                closed := st.closed ++ [closeSession s],
                log := st.log ++ [LogEvent.closedFailedSession ev.key ev.reason] }) :=
  ⟨rfl, forward_write_failure, relay_read_failure, relay_respond_failure,
    relay_timeout_stale, notify_not_full, handleSessionEvent_found⟩

/-- C2 witness: each failure path applied at concrete inputs — a failing
first write, a read error, a failing reply write-back, a stale timeout, a
send on an empty event channel, and the manager evicting the session an
event names. -/
theorem udp_failure_reporting_spec_witness :
    (forwardUDPPackets
        { clientAddr := "c", remoteClosed := false, outbound := [],
          outboundClosed := false, lastActive := 0, id := "c" }
        (fun _ => false) [] [] [[5]] 0
      = ([], notifyUDPSessionFailure
               { clientAddr := "c", remoteClosed := false, outbound := [],
                 outboundClosed := false, lastActive := 0, id := "c" }
               "write failure" [] [LogEvent.sendError "c"]))
    ∧ (relayUDPReplies
        { clientAddr := "c", remoteClosed := false, outbound := [],
          outboundClosed := false, lastActive := 0, id := "c" } [] []
        [{ outcome := ReadOutcome.readErr, respondOk := true, now := 0, lastActive := 0 }]
      = ([], notifyUDPSessionFailure
               { clientAddr := "c", remoteClosed := false, outbound := [],
                 outboundClosed := false, lastActive := 0, id := "c" }
               "read failure" [] [LogEvent.readReplyError "c"]))
    ∧ (relayUDPReplies
        { clientAddr := "c", remoteClosed := false, outbound := [],
          outboundClosed := false, lastActive := 0, id := "c" } [] []
        [{ outcome := ReadOutcome.ok [3], respondOk := false, now := 0, lastActive := 0 }]
      = ([], notifyUDPSessionFailure
               { clientAddr := "c", remoteClosed := false, outbound := [],
                 outboundClosed := false, lastActive := 0, id := "c" }
               "respond failure" [] [LogEvent.writeReplyError "c"]))
    ∧ (relayUDPReplies
        { clientAddr := "c", remoteClosed := false, outbound := [],
          outboundClosed := false, lastActive := 0, id := "c" } [] []
        [{ outcome := ReadOutcome.timeout, respondOk := true, now := 100, lastActive := 0 }]
      = ([], notifyUDPSessionFailure
               { clientAddr := "c", remoteClosed := false, outbound := [],
                 outboundClosed := false, lastActive := 0, id := "c" }
               "remote idle timeout" [] []))
    ∧ (notifyUDPSessionFailure
        { clientAddr := "c", remoteClosed := false, outbound := [],
          outboundClosed := false, lastActive := 0, id := "c" }
        "write failure" [] []
      = ([{ key := "c", reason := "write failure" }], []))
    ∧ (handleSessionEvent { key := "c", reason := "read failure" }
        { sessions :=
            [("c", { clientAddr := "c", remoteClosed := false, outbound := [],
                     outboundClosed := false, lastActive := 0, id := "c" })],
          closed := [], log := [] }
      = { sessions :=
            removeSession "c"
              [("c", { clientAddr := "c", remoteClosed := false, outbound := [],
                       outboundClosed := false, lastActive := 0, id := "c" })],
          closed := [closeSession
            { clientAddr := "c", remoteClosed := false, outbound := [],
              outboundClosed := false, lastActive := 0, id := "c" }],
          log := [LogEvent.closedFailedSession "c" "read failure"] }) :=
  ⟨udp_failure_reporting_spec.2.1 _ (fun _ => false) [] [] [5] [] 0 rfl,
    udp_failure_reporting_spec.2.2.1 _ [] []
      { outcome := ReadOutcome.readErr, respondOk := true, now := 0, lastActive := 0 } [] rfl,
    udp_failure_reporting_spec.2.2.2.1 _ [] []
      { outcome := ReadOutcome.ok [3], respondOk := false, now := 0, lastActive := 0 } [] [3] rfl rfl,
    udp_failure_reporting_spec.2.2.2.2.1 _ [] []
      { outcome := ReadOutcome.timeout, respondOk := true, now := 100, lastActive := 0 } [] rfl
      (by decide),
    udp_failure_reporting_spec.2.2.2.2.2.1 _ "write failure" [] [] (by decide),
    udp_failure_reporting_spec.2.2.2.2.2.2 { key := "c", reason := "read failure" }
      { sessions :=
          [("c", { clientAddr := "c", remoteClosed := false, outbound := [],
                   outboundClosed := false, lastActive := 0, id := "c" })],
        closed := [], log := [] }
      { clientAddr := "c", remoteClosed := false, outbound := [],
        outboundClosed := false, lastActive := 0, id := "c" } (by decide)⟩

/-- C6: for every accepted TCP connection whose dial succeeds, in every
completion order and error combination of the two copy directions, both
copy-completion signals occur before the connection-closed log, and the
log precedes the deferred closes of the server and client sockets — no
socket closes while a direction is still copying. -/
theorem tcp_close_after_completion :
    ∀ c2sFirst c2sErr s2cErr : Bool,
      TCPEvent.copyDoneClientToServer ∈ handleTCPConn true c2sFirst c2sErr s2cErr
      ∧ TCPEvent.copyDoneServerToClient ∈ handleTCPConn true c2sFirst c2sErr s2cErr
      ∧ (handleTCPConn true c2sFirst c2sErr s2cErr).indexOf TCPEvent.copyDoneClientToServer
          < (handleTCPConn true c2sFirst c2sErr s2cErr).indexOf TCPEvent.logConnClosed
      ∧ (handleTCPConn true c2sFirst c2sErr s2cErr).indexOf TCPEvent.copyDoneServerToClient
          < (handleTCPConn true c2sFirst c2sErr s2cErr).indexOf TCPEvent.logConnClosed
      ∧ (handleTCPConn true c2sFirst c2sErr s2cErr).indexOf TCPEvent.logConnClosed
          < (handleTCPConn true c2sFirst c2sErr s2cErr).indexOf TCPEvent.serverConnClosed
      ∧ (handleTCPConn true c2sFirst c2sErr s2cErr).indexOf TCPEvent.serverConnClosed
          < (handleTCPConn true c2sFirst c2sErr s2cErr).indexOf TCPEvent.clientConnClosed := by
  decide

/-- C7: when the replier's read times out, the loop continues (renewing the
deadline at the top of the next iteration) if the session's last activity
is within the 60-second threshold, and otherwise reports the
`remote idle timeout` failure and exits. -/
theorem udp_replier_timeout_spec :
    ∀ (session : udpSession) (events : List sessionEvent) (log : List LogEvent)
      (inp : ReplierInput) (rest : List ReplierInput),
      inp.outcome = ReadOutcome.timeout →
      ((inp.now - inp.lastActive < udpIdleThreshold →
          relayUDPReplies session events log (inp :: rest)
            = relayUDPReplies session events log rest)
        ∧ (udpIdleThreshold ≤ inp.now - inp.lastActive →
          relayUDPReplies session events log (inp :: rest)
            = ([], notifyUDPSessionFailure session "remote idle timeout" events log))) :=
  fun session events log inp rest h =>
    ⟨fun hlt => relay_timeout_fresh session events log inp rest h hlt,
      fun hge => relay_timeout_stale session events log inp rest h hge⟩

/-- C7 witness: a timeout 10 seconds after the last activity continues the
loop; a timeout 100 seconds after the last activity reports the idle
failure and stops. -/
theorem udp_replier_timeout_spec_witness :
    (relayUDPReplies
        { clientAddr := "c", remoteClosed := false, outbound := [],
          outboundClosed := false, lastActive := 0, id := "c" } [] []
        [{ outcome := ReadOutcome.timeout, respondOk := true, now := 10, lastActive := 0 }]
      = relayUDPReplies
          { clientAddr := "c", remoteClosed := false, outbound := [],
            outboundClosed := false, lastActive := 0, id := "c" } [] [] [])
    ∧ (relayUDPReplies
        { clientAddr := "c", remoteClosed := false, outbound := [],
          outboundClosed := false, lastActive := 0, id := "c" } [] []
        [{ outcome := ReadOutcome.timeout, respondOk := true, now := 100, lastActive := 0 }]
      = ([], notifyUDPSessionFailure
               { clientAddr := "c", remoteClosed := false, outbound := [],
                 outboundClosed := false, lastActive := 0, id := "c" }
               "remote idle timeout" [] [])) :=
  ⟨(udp_replier_timeout_spec _ [] []
      { outcome := ReadOutcome.timeout, respondOk := true, now := 10, lastActive := 0 } [] rfl).1
      (by decide),
    (udp_replier_timeout_spec _ [] []
      { outcome := ReadOutcome.timeout, respondOk := true, now := 100, lastActive := 0 } [] rfl).2
      (by decide)⟩

/-- C8: when the failure-event channel already holds its capacity of
events, the non-blocking report is dropped: the channel is returned
unchanged (so the manager, whose only failure-driven eviction is a
dequeued event, never tears the session down — it is intentionally
leaked), and a queue-overflow line is logged, so the drop is not silent;
below capacity exactly one event is enqueued instead. -/
theorem udp_event_overflow_spec :
    ∀ (session : udpSession) (reason : String) (events : List sessionEvent)
      (log : List LogEvent),
      (sessionEventCapacity ≤ events.length →
        (notifyUDPSessionFailure session reason events log
            = (events, log ++ [LogEvent.eventQueueFull session.clientAddr reason])
          ∧ (∀ st : ManagerState,
              drainEvents (notifyUDPSessionFailure session reason events log).1 st
                = drainEvents events st)))
      ∧ (events.length < sessionEventCapacity →
          notifyUDPSessionFailure session reason events log
            = (events ++ [{ key := session.id, reason := reason }], log)) := by
  intro session reason events log
  constructor
  · intro h
    refine ⟨notify_full session reason events log h, ?_⟩
    intro st
    rw [notify_full session reason events log h]
  · exact notify_not_full session reason events log

/-- C8 witness: with 128 queued events the report from session `c` is
dropped, the overflow is logged, and the backlog the manager will drain is
unchanged; with an empty channel the event is enqueued. -/
theorem udp_event_overflow_spec_witness :
    (notifyUDPSessionFailure
        { clientAddr := "c", remoteClosed := false, outbound := [],
          outboundClosed := false, lastActive := 0, id := "c" }
        "write failure" (List.replicate 128 { key := "k", reason := "r" }) []
      = (List.replicate 128 { key := "k", reason := "r" },
         [LogEvent.eventQueueFull "c" "write failure"]))
    ∧ (drainEvents
        (notifyUDPSessionFailure
          { clientAddr := "c", remoteClosed := false, outbound := [],
            outboundClosed := false, lastActive := 0, id := "c" }
          "write failure" (List.replicate 128 { key := "k", reason := "r" }) []).1
        initialManagerState
      = drainEvents (List.replicate 128 { key := "k", reason := "r" })
          initialManagerState)
    ∧ (notifyUDPSessionFailure
        { clientAddr := "c", remoteClosed := false, outbound := [],
          outboundClosed := false, lastActive := 0, id := "c" }
        "write failure" [] []
      = ([{ key := "c", reason := "write failure" }], [])) :=
  ⟨((udp_event_overflow_spec
      { clientAddr := "c", remoteClosed := false, outbound := [],
        outboundClosed := false, lastActive := 0, id := "c" }
      "write failure" (List.replicate 128 { key := "k", reason := "r" }) []).1
      (by decide)).1,
    ((udp_event_overflow_spec
      { clientAddr := "c", remoteClosed := false, outbound := [],
        outboundClosed := false, lastActive := 0, id := "c" }
      "write failure" (List.replicate 128 { key := "k", reason := "r" }) []).1
      (by decide)).2 initialManagerState,
    (udp_event_overflow_spec
      { clientAddr := "c", remoteClosed := false, outbound := [],
        outboundClosed := false, lastActive := 0, id := "c" }
      "write failure" [] []).2 (by decide)⟩

/-- C9: over every interleaving of manager enqueues (with drop at the
32-slot capacity) and forwarder drains (stopping at a write error), the
sequence of payloads written to the remote is a subsequence of the
client's datagrams in send order — the forwarder never reorders within a
session. -/
theorem udp_session_fifo_order :
    ∀ ops : List SessionOp,
      List.Sublist (fifoRun ops).written (arrivals ops) := by
  intro ops
  have h := fifoRun_order_aux ops { queue := [], written := [], stopped := false } []
      (by simp)
  have h2 : List.Sublist (fifoRun ops).written
      ((fifoRun ops).written ++ (fifoRun ops).queue) :=
    List.sublist_append_left _ _
  simpa [fifoRun] using h2.trans h

/-- C10: a failure event names its session only by the client-address key,
and the manager evicts whichever session currently occupies that key: in
the concrete run below the session created at time 0 is already evicted by
the idle sweep and replaced (same address `c`) by a session created at
time 100, yet processing the stale `write failure` event — which the old
session's forwarder sent — tears down the replacement session. -/
theorem udp_failure_event_by_key :
    (∀ (ev : sessionEvent) (st : ManagerState) (s : udpSession),
        findSession ev.key st.sessions = some s →
          handleSessionEvent ev st
            = { sessions := removeSession ev.key st.sessions,
                closed := st.closed ++ [closeSession s],
                log := st.log ++ [LogEvent.closedFailedSession ev.key ev.reason] })
    ∧ (findSession "c" (managerRun "t"
          [ManagerInput.inbound true true 0 { data := [0], addr := "c" },
           ManagerInput.tick 100,
           ManagerInput.inbound true true 100 { data := [1], addr := "c" }]).sessions
        = some { clientAddr := "c", remoteClosed := false, outbound := [[1]],
                 outboundClosed := false, lastActive := 100, id := "c" })
    ∧ (findSession "c"
          ((managerStep "t"
              (ManagerInput.failure { key := "c", reason := "write failure" })
              (managerRun "t"
                [ManagerInput.inbound true true 0 { data := [0], addr := "c" },
                 ManagerInput.tick 100,
                 ManagerInput.inbound true true 100 { data := [1], addr := "c" }])).sessions)
        = none)
    ∧ (LogEvent.closedFailedSession "c" "write failure"
        ∈ (managerStep "t"
            (ManagerInput.failure { key := "c", reason := "write failure" })
            (managerRun "t"
              [ManagerInput.inbound true true 0 { data := [0], addr := "c" },
               ManagerInput.tick 100,
               ManagerInput.inbound true true 100 { data := [1], addr := "c" }])).log) :=
  ⟨handleSessionEvent_found, by decide, by decide, by decide⟩

/-- C10 witness: the key-based eviction applied to a concrete table holding
a session under key `c`. -/
theorem udp_failure_event_by_key_witness :
    handleSessionEvent { key := "c", reason := "read failure" }
        { sessions :=
            [("c", { clientAddr := "c", remoteClosed := false, outbound := [],
                     outboundClosed := false, lastActive := 7, id := "c" })],
          closed := [], log := [] }
      = { sessions :=
            removeSession "c"
              [("c", { clientAddr := "c", remoteClosed := false, outbound := [],
                       outboundClosed := false, lastActive := 7, id := "c" })],
          closed := [closeSession
            { clientAddr := "c", remoteClosed := false, outbound := [],
              outboundClosed := false, lastActive := 7, id := "c" }],
          log := [LogEvent.closedFailedSession "c" "read failure"] } :=
  udp_failure_event_by_key.1 { key := "c", reason := "read failure" }
    { sessions :=
        [("c", { clientAddr := "c", remoteClosed := false, outbound := [],
                 outboundClosed := false, lastActive := 7, id := "c" })],
      closed := [], log := [] }
    { clientAddr := "c", remoteClosed := false, outbound := [],
      outboundClosed := false, lastActive := 7, id := "c" } (by decide)

end ChichaProxy
